import Mathlib

/-!
Verification of the discovery helper (`homeassistant/helpers/discovery.py`)
and the Yr.no sensor poll cycle (`homeassistant/components/sensor/yr.py`).

The Python code is embedded shallowly:

* Timestamps (`datetime` values compared with `<` / `>=`) are modelled as
  integers measured in minutes, so `timedelta(minutes=15)` becomes `+ 15`
  and `dt_util.utcnow()` becomes the explicit parameter `now`.
* `dt_util.parse_datetime` applied to a payload attribute is folded into the
  model of the payload: a payload field that the code parses into a datetime
  is carried directly as an integer timestamp.
* Python dictionary access that can raise `KeyError` / `IndexError`, and the
  use of a possibly-unbound local (`NameError`), are made explicit with
  `Option` and an error component; exception kinds the code can raise or
  catch are the inductive `PyErr`.
* Side effects of one `async_update` cycle (warning log entries, timers armed
  via `async_track_point_in_utc_time`, the assignment to `self.data`, state
  written to each device together with whether `async_update_ha_state` was
  scheduled for it, and an exception escaping to the caller) are collected in
  the result structure `UpdateOutcome`.
-/

namespace Spec2Proof

/-- The sensor kinds of `SENSOR_TYPES` in `yr.py`. -/
inductive SensorType
  | symbol
  | precipitation
  | temperature
  | windSpeed
  | windGust
  | pressure
  | windDirection
  | humidity
  | fog
  | cloudiness
  | lowClouds
  | mediumClouds
  | highClouds
  | dewpointTemperature
  deriving DecidableEq, Repr

/-- The attribute dictionary `loc_data[dev.type]` of one measurement inside a
time entry: the attributes the code reads (`@value`, `@number`, `@mps`,
`@deg`, `@percent`).  Attribute access is modelled total; which attribute is
read for which kind follows the source. -/
structure LocEntry where
  value : String
  number : String
  mps : String
  deg : String
  percent : String
  deriving DecidableEq, Repr

/-- A value stored into `dev._state`: either a raw attribute string, or the
result of `float(...)` applied to the `@deg` string (kept symbolically as the
tagged string, since no claim depends on float arithmetic). -/
inductive YrValue
  | str (s : String)
  | floatOf (s : String)
  deriving DecidableEq, Repr

/-- One element of `self.data['product']['time']`: the parsed `@from` / `@to`
boundaries and the `location` dictionary mapping measurement names to their
attribute dictionaries. -/
structure TimeEntry where
  validFrom : Int
  validTo : Int
  location : List (SensorType × LocEntry)
  deriving DecidableEq, Repr

/-- Dictionary lookup `loc_data[dev.type]` (`none` = key absent, the
`dev.type not in loc_data` test). -/
def lookupLoc (loc : List (SensorType × LocEntry)) (t : SensorType) : Option LocEntry :=
  (loc.find? (fun p => p.1 = t)).map (fun p => p.2)

/-- Which attribute the update loop reads for each sensor kind
(`@value`, `@number`, `@mps`, `float(@deg)`, `@percent`). -/
def readField (t : SensorType) (loc : LocEntry) : YrValue :=
  match t with
  | .precipitation => .str loc.value
  | .symbol => .str loc.number
  | .temperature | .pressure | .humidity | .dewpointTemperature => .str loc.value
  | .windSpeed | .windGust => .str loc.mps
  | .windDirection => .floatOf loc.deg
  | .fog | .cloudiness | .lowClouds | .mediumClouds | .highClouds => .str loc.percent

/-- One iteration of the inner `for time_entry in self.data['product']['time']`
loop of `YrData.async_update`: `some v` when this entry triggers `break` with
`new_state = v`, `none` when the loop `continue`s past it.  Note the source
guards `valid_from < now` only in the `precipitation` and `symbol` branches. -/
def entryMatch (t : SensorType) (now : Int) (e : TimeEntry) : Option YrValue :=
  match lookupLoc e.location t with
  | none => none
  | some loc =>
    if now ≥ e.validTo then none
    else
      match t with
      | .precipitation => if e.validFrom < now then some (.str loc.value) else none
      | .symbol => if e.validFrom < now then some (.str loc.number) else none
      | _ => some (readField t loc)

/-- The inner loop in full: the value of `new_state` produced by the first
entry that `break`s, `none` when no entry matches. -/
def findState (t : SensorType) (now : Int) : List TimeEntry → Option YrValue
  | [] => none
  | e :: es =>
    match entryMatch t now e with
    | some v => some v
    | none => findState t now es

/-- A `YrSensor` as the update loop sees it: its `type` and its `_state`
(`none` is Python `None`, the initial state). -/
structure Device where
  type : SensorType
  state : Option YrValue
  deriving DecidableEq, Repr

/-- The exception kinds relevant to `async_update`: `KeyError` (not caught by
the data-processing `except`), `IndexError` (caught), and the `NameError` of
reading `new_state` when no branch ever assigned it. -/
inductive PyErr
  | keyError
  | indexError
  | nameError
  deriving DecidableEq, Repr

/-- The `for dev in self.devices` loop.  `prev` is the current value of the
local `new_state`, which Python does not reset between devices (`none` =
still unbound).  Returns each device with its final `_state` and whether
`async_update_ha_state` was scheduled for it, plus the exception aborting the
loop, if any (reading an unbound `new_state` raises `NameError`). -/
def updateDevices (now : Int) (entries : List TimeEntry) (prev : Option YrValue) :
    List Device → List (Device × Bool) × Option PyErr
  | [] => ([], none)
  | d :: ds =>
    match (match findState d.type now entries with
           | some v => some v
           | none => prev) with
    | none => ((d, false) :: ds.map (fun x => (x, false)), some PyErr.nameError)
    | some v =>
      if some v ≠ d.state then
        let r := updateDevices now entries (some v) ds
        (({ d with state := some v }, true) :: r.1, r.2)
      else
        let r := updateDevices now entries (some v) ds
        ((d, false) :: r.1, r.2)

/-- `self.data['meta']['model']` as parsed by xmltodict: either a single
attribute dictionary (whose `@nextrun` key may be absent), or a list of such
dictionaries.  The `@nextrun` value is carried as its parsed timestamp. -/
inductive ModelField
  | dict (nextrun : Option Int)
  | list (rs : List (Option Int))
  deriving DecidableEq, Repr

/-- `if '@nextrun' not in model: model = model[0]` followed by
`model['@nextrun']`.  On a single dictionary, a missing `@nextrun` makes
`model[0]` raise `KeyError` (0 is not a key); on a list, `'@nextrun' in model`
is membership of the string among the element dictionaries, hence false, so
the first element is taken: an empty list raises `IndexError`, and a first
element without `@nextrun` raises `KeyError`. -/
def extractNextRun : ModelField → Except PyErr Int
  | .dict (some t) => .ok t
  | .dict none => .error .keyError
  | .list [] => .error .indexError
  | .list (some t :: _) => .ok t
  | .list (none :: _) => .error .keyError

/-- `self.data['product']`: the ordered time entries. -/
structure Product where
  time : List TimeEntry
  deriving DecidableEq, Repr

/-- `self.data['meta']`; a missing `model` key raises `KeyError`. -/
structure Meta where
  model : Option ModelField
  deriving DecidableEq, Repr

/-- The `weatherdata` element assigned to `self.data`; missing `meta` or
`product` keys raise `KeyError` where accessed. -/
structure WeatherData where
  meta : Option Meta
  product : Option Product
  deriving DecidableEq, Repr

/-- The dictionary returned by `xmltodict.parse(text)`; a missing
`weatherdata` key raises `KeyError`. -/
structure Document where
  weatherdata : Option WeatherData
  deriving DecidableEq, Repr

/-- The body of a 200 response: either XML that fails to parse (`ExpatError`,
caught) or a parsed document. -/
inductive Body
  | malformed
  | parsed (doc : Document)
  deriving DecidableEq, Repr

/-- The outcome of the fetch step: `asyncio.TimeoutError`, an
`aiohttp` `HTTPException`, or a response with its status and body. -/
inductive FetchResult
  | timeout
  | httpError
  | ok (status : Nat) (body : Body)
  deriving DecidableEq, Repr

/-- The observable effects of one `async_update` cycle: warning log entries,
the timestamps handed to `async_track_point_in_utc_time` in order, the value
of `self.data` afterwards (`none` = never assigned, the initial `{}`), the
devices with their notification flags, and the exception propagated to the
caller, if any. -/
structure UpdateOutcome where
  warnings : Nat
  scheduled : List Int
  data : Option WeatherData
  devices : List (Device × Bool)
  err : Option PyErr
  deriving DecidableEq, Repr

/-- `try_again`: one warning, one timer 15 minutes from now, nothing else
touched. -/
def tryAgain (now : Int) (data : Option WeatherData) (devices : List Device) : UpdateOutcome :=
  { warnings := 1
    scheduled := [now + 15]
    data := data
    devices := devices.map (fun d => (d, false))
    err := none }

/-- `YrData.async_update` as a function of the current time, the prior
`self.data`, the devices, and the fetch outcome.  Each arm mirrors one path
of the source: the transport `try/except`, the `resp.status != 200` check,
the data-processing `try` with its `except (ExpatError, IndexError)`, the
scheduling of the next run, and the device-update loop. -/
def async_update (now : Int) (data : Option WeatherData) (devices : List Device)
    (fetch : FetchResult) : UpdateOutcome :=
  match fetch with
  | .timeout => tryAgain now data devices
  | .httpError => tryAgain now data devices
  | .ok status body =>
    if status ≠ 200 then tryAgain now data devices
    else
      match body with
      | .malformed => tryAgain now data devices
      | .parsed doc =>
        match doc.weatherdata with
        | none =>
          { warnings := 0, scheduled := [], data := data
            devices := devices.map (fun d => (d, false)), err := some .keyError }
        | some wd =>
          match wd.meta with
          | none =>
            { warnings := 0, scheduled := [], data := some wd
              devices := devices.map (fun d => (d, false)), err := some .keyError }
          | some m =>
            match m.model with
            | none =>
              { warnings := 0, scheduled := [], data := some wd
                devices := devices.map (fun d => (d, false)), err := some .keyError }
            | some mf =>
              match extractNextRun mf with
              | .error .indexError => tryAgain now (some wd) devices
              | .error e =>
                { warnings := 0, scheduled := [], data := some wd
                  devices := devices.map (fun d => (d, false)), err := some e }
              | .ok nextRun =>
                match wd.product with
                | none =>
                  { warnings := 0, scheduled := [nextRun], data := some wd
                    devices := devices.map (fun d => (d, false)), err := some .keyError }
                | some prod =>
                  let r := updateDevices now prod.time none devices
                  { warnings := 0, scheduled := [nextRun], data := some wd
                    devices := r.1, err := r.2 }

/-! ### Model of `homeassistant/helpers/discovery.py` -/

/-- The state of `hass.data.get('setup_lock')` when `async_load_platform`
starts: whether the key is present, and whether `lock.locked()` holds. -/
structure LockState where
  present : Bool
  locked : Bool
  deriving DecidableEq, Repr

/-- The behaviour of the protected `bootstrap.async_setup_component` call:
it returns a result `res`, or it raises. -/
inductive SetupResult
  | ok (res : Bool)
  | raises
  deriving DecidableEq, Repr

/-- Operations performed on the setup lock, in order. -/
inductive LockOp
  | acquire
  | release
  deriving DecidableEq, Repr

/-- The data of the `EVENT_PLATFORM_DISCOVERED` event fired by
`async_load_platform`: `ATTR_SERVICE`, `ATTR_PLATFORM` and the optional
`ATTR_DISCOVERED` payload (kept opaque as a string). -/
structure DiscoveryEventData where
  service : String
  platform : String
  discovered : Option String
  deriving DecidableEq, Repr

/-- The observable effects of one `async_load_platform` call: the lock
operations in order, the event fired (if any), and whether an exception
propagated to the caller. -/
structure LoadPlatformOutcome where
  lockOps : List LockOp
  event : Option DiscoveryEventData
  raised : Bool
  deriving DecidableEq, Repr

/-- `EVENT_LOAD_PLATFORM.format(component)` with
`EVENT_LOAD_PLATFORM = 'load_platform.' + placeholder`. -/
def loadPlatformService (component : String) : String :=
  "load_platform." ++ component

/-- `async_load_platform`: acquire the setup lock when it is present *and*
currently locked; run the setup call under `try/finally` releasing the lock
exactly when this call acquired it; on a falsy setup result return without
firing; otherwise fire `EVENT_PLATFORM_DISCOVERED` with the formatted
service, the platform, and the discovered payload when given. -/
def async_load_platform (lock : LockState) (component platform : String)
    (discovered : Option String) (setup : SetupResult) : LoadPlatformOutcome :=
  let didLock := lock.present && lock.locked
  let acq : List LockOp := if didLock then [.acquire] else []
  let rel : List LockOp := if didLock then [.release] else []
  match setup with
  | .raises => { lockOps := acq ++ rel, event := none, raised := true }
  | .ok res =>
    if res then
      { lockOps := acq ++ rel
        event := some ⟨loadPlatformService component, platform, discovered⟩
        raised := false }
    else
      { lockOps := acq ++ rel, event := none, raised := false }

/-- The data of an incoming `EVENT_PLATFORM_DISCOVERED` event as
`discovery_platform_listener` reads it with `.get`: each attribute may be
absent. -/
structure EventData where
  service : Option String
  platform : Option String
  discovered : Option String
  deriving DecidableEq, Repr

/-- The listener registered by `async_listen_platform`: drop the event unless
its service equals the formatted service; drop it when the platform attribute
is absent or falsy (the empty string); otherwise schedule the callback with
the platform and the discovered payload.  `some (p, d)` = the callback run
via `hass.async_run_job`. -/
def discovery_platform_listener (component : String) (event : EventData) :
    Option (String × Option String) :=
  if event.service ≠ some (loadPlatformService component) then none
  else
    match event.platform with
    | none => none
    | some p => if p = "" then none else some (p, event.discovered)

/-! ### Spec-side definitions for the corrected claims

These follow the spec's words, to be compared with the definitions above. -/

/-- The spec's window condition: the window carries the device's kind, its
start boundary is strictly before `now`, and its end boundary is strictly
after `now` — claimed for *every* kind. -/
def specWindowOk (t : SensorType) (now : Int) (e : TimeEntry) : Bool :=
  (lookupLoc e.location t).isSome && decide (e.validFrom < now) && decide (now < e.validTo)

/-- The selection the claim describes: the first window (in payload order)
satisfying `specWindowOk`, its value read by kind. -/
def specSelectClaim (t : SensorType) (now : Int) (es : List TimeEntry) : Option YrValue :=
  (es.find? (specWindowOk t now)).bind (fun e => (lookupLoc e.location t).map (readField t))

/-- The window condition the code actually enforces: the kind is present and
the end boundary is after `now`; the start boundary is checked only for the
`precipitation` and `symbol` kinds. -/
def codeWindowOk (t : SensorType) (now : Int) (e : TimeEntry) : Bool :=
  (lookupLoc e.location t).isSome && decide (now < e.validTo) &&
    (if t = .precipitation ∨ t = .symbol then decide (e.validFrom < now) else true)

/-- First-window selection under the code's condition. -/
def codeSelect (t : SensorType) (now : Int) (es : List TimeEntry) : Option YrValue :=
  (es.find? (codeWindowOk t now)).bind (fun e => (lookupLoc e.location t).map (readField t))

/-- The failure categories `async_update` actually converts into a retry:
timeout, transport error, a non-200 status, an XML body that fails to parse
(`ExpatError`), and an empty model list (`IndexError`).  Missing-key failures
(`KeyError`) are not in this set. -/
def caughtFailure : FetchResult → Bool
  | .timeout => true
  | .httpError => true
  | .ok status body =>
    if status ≠ 200 then true
    else
      match body with
      | .malformed => true
      | .parsed doc =>
        match doc.weatherdata with
        | some wd =>
          match wd.meta with
          | some m =>
            match m.model with
            | some (.list []) => true
            | _ => false
          | none => false
        | none => false

/-! ### Helper lemmas -/

/-- One inner-loop iteration selects exactly under the code's window
condition, reading the kind's field from the matched entry. -/
theorem entryMatch_eq_code (t : SensorType) (now : Int) (e : TimeEntry) :
    entryMatch t now e =
      if codeWindowOk t now e then (lookupLoc e.location t).map (readField t) else none := by
  rcases hl : lookupLoc e.location t with _ | loc
  · simp [entryMatch, codeWindowOk, hl]
  · rcases le_or_lt e.validTo now with hto | hto
    · simp [entryMatch, codeWindowOk, hl, hto, not_lt.mpr hto]
    · cases t <;>
        simp [entryMatch, codeWindowOk, hl, readField, hto, not_le.mpr hto]

/-! ### Claim theorems -/

/-- C1 counterexample: a successfully parsed payload whose single model
dictionary lacks the `@nextrun` key is a "missing next-run timestamp"
failure, yet `async_update` logs no warning, arms no retry, and the
`KeyError` propagates to the caller. -/
theorem next_run_keyerror_propagates :
    async_update 0 none []
        (FetchResult.ok 200 (Body.parsed ⟨some ⟨some ⟨some (ModelField.dict none)⟩, some ⟨[]⟩⟩⟩)) =
      { warnings := 0, scheduled := [], data := some ⟨some ⟨some (ModelField.dict none)⟩, some ⟨[]⟩⟩
        devices := [], err := some PyErr.keyError } := by
  rfl

/-- C1 (amended): for the failure categories the code actually catches —
timeout, transport error, non-200 status, unparseable XML (`ExpatError`) and
an empty model list (`IndexError`) — `async_update` logs exactly one warning,
arms exactly one retry 15 minutes later, leaves every device untouched, and
returns normally; but missing-key failures (`KeyError`), including a missing
`@nextrun` timestamp, propagate to the caller. -/
theorem caught_failures_retry (now : Int) (data : Option WeatherData)
    (devices : List Device) (fetch : FetchResult) (h : caughtFailure fetch = true) :
    (async_update now data devices fetch).warnings = 1 ∧
    (async_update now data devices fetch).scheduled = [now + 15] ∧
    (async_update now data devices fetch).err = none ∧
    (async_update now data devices fetch).devices = devices.map (fun d => (d, false)) := by
  rcases fetch with _ | _ | ⟨status, body⟩
  · simp [async_update, tryAgain]
  · simp [async_update, tryAgain]
  · by_cases hs : status = 200
    · subst hs
      rcases body with _ | ⟨wdo⟩
      · simp [async_update, tryAgain]
      · rcases wdo with _ | wd
        · simp [caughtFailure] at h
        · rcases wd with ⟨mo, po⟩
          rcases mo with _ | m
          · simp [caughtFailure] at h
          · rcases m with ⟨mfo⟩
            rcases mfo with _ | mf
            · simp [caughtFailure] at h
            · rcases mf with nro | rs
              · simp [caughtFailure] at h
              · rcases rs with _ | ⟨r, rs⟩
                · simp [async_update, tryAgain, extractNextRun]
                · simp [caughtFailure] at h
    · simp [async_update, tryAgain, hs]

/-- C1 witness: the timeout category at a concrete input. -/
theorem caught_failures_retry_witness :
    (async_update 0 none [] FetchResult.timeout).warnings = 1 ∧
    (async_update 0 none [] FetchResult.timeout).scheduled = [0 + 15] ∧
    (async_update 0 none [] FetchResult.timeout).err = none ∧
    (async_update 0 none [] FetchResult.timeout).devices =
      List.map (fun d => (d, false)) [] :=
  caught_failures_retry 0 none [] FetchResult.timeout rfl

/-- C2 counterexample: for the `temperature` kind, a window whose start
boundary (5) is *after* `now` (0) is nevertheless selected by the update
step, while the claimed selection rule (start strictly before `now` for
every kind) selects nothing. -/
theorem future_window_selected :
    findState SensorType.temperature 0
        [⟨5, 10, [(SensorType.temperature, ⟨"21", "", "", "", ""⟩)]⟩] =
      some (YrValue.str "21") ∧
    specSelectClaim SensorType.temperature 0
        [⟨5, 10, [(SensorType.temperature, ⟨"21", "", "", "", ""⟩)]⟩] = none := by
  decide

/-- C2 (amended): the update step selects the first time-window in payload
order that contains the device's kind and whose end boundary is strictly
after `now`; the start-boundary-strictly-before-`now` requirement is enforced
only for the `precipitation` and `symbol` kinds.  The value read comes from
that window and from no later window. -/
theorem window_selection_matches_code (t : SensorType) (now : Int) (es : List TimeEntry) :
    findState t now es = codeSelect t now es := by
  induction es with
  | nil => rfl
  | cons e es ih =>
    by_cases h : codeWindowOk t now e = true
    · have hl : (lookupLoc e.location t).isSome = true := by
        have := h
        unfold codeWindowOk at this
        exact (Bool.and_eq_true_iff.mp ((Bool.and_eq_true_iff.mp this).1)).1
      rcases Option.isSome_iff_exists.mp hl with ⟨loc, hloc⟩
      simp [findState, codeSelect, List.find?, entryMatch_eq_code, h, hloc]
    · simp only [findState, entryMatch_eq_code, h, if_neg, Bool.not_eq_true]
      simp only [codeSelect, List.find?] at ih ⊢
      rw [Bool.of_not_eq_true h]
      exact ih

/-- C3: in the device-update loop, given that a value `v` was extracted for
the device at the head of the remaining list, the model's notification flag
for that device (whether `async_update_ha_state` was scheduled — the loop
appends at most one task per device by construction) is set exactly when `v`
differs from the device's previously held `_state`, whatever the latched
`new_state` from earlier devices was. -/
theorem notify_iff_changed (now : Int) (entries : List TimeEntry) (prev : Option YrValue)
    (d : Device) (ds : List Device) (v : YrValue)
    (h : findState d.type now entries = some v) :
    ((updateDevices now entries prev (d :: ds)).1.head?.map Prod.snd) =
      some (decide (some v ≠ d.state)) := by
  unfold updateDevices
  rw [h]
  by_cases hv : some v ≠ d.state
  · simp [hv]
  · simp [hv]

/-- C3 witness: a concrete device whose extracted value differs from its
initial `None` state gets its notification flag set. -/
theorem notify_iff_changed_witness :
    ((updateDevices 0 [⟨-1, 10, [(SensorType.temperature, ⟨"21", "", "", "", ""⟩)]⟩] none
        [⟨SensorType.temperature, none⟩]).1.head?.map Prod.snd) =
      some (decide (some (YrValue.str "21") ≠ (⟨SensorType.temperature, none⟩ : Device).state)) :=
  notify_iff_changed 0 [⟨-1, 10, [(SensorType.temperature, ⟨"21", "", "", "", ""⟩)]⟩] none
    ⟨SensorType.temperature, none⟩ [] (YrValue.str "21") (by decide)

/-- C4: in `async_load_platform` the lock is released exactly as many times
as it was acquired — so an acquiring invocation releases on every exit path,
including the one where the protected setup call raises, and a non-acquiring
invocation never calls release — and an exception from the protected setup
call propagates to the caller exactly when the setup call raises. -/
theorem lock_released_iff_acquired (lock : LockState) (c p : String)
    (d : Option String) (s : SetupResult) :
    (async_load_platform lock c p d s).lockOps.count LockOp.release =
      (async_load_platform lock c p d s).lockOps.count LockOp.acquire ∧
    (async_load_platform lock c p d s).raised = decide (s = SetupResult.raises) := by
  rcases lock with ⟨pres, lk⟩
  rcases s with res | _ <;> try cases res
  all_goals cases pres <;> cases lk <;> simp [async_load_platform]

/-- C5 counterexample: with the gate object present in the shared context but
currently unlocked, `async_load_platform` performs no lock operation at all —
it does not acquire the present gate before the protected setup call. -/
theorem present_unlocked_gate_not_acquired :
    (LockState.mk true false).present = true ∧
    (async_load_platform ⟨true, false⟩ "comp" "plat" none (SetupResult.ok true)).lockOps = [] := by
  constructor
  · rfl
  · rfl

/-- C5 (amended): `async_load_platform` acquires the gate (and then releases
it) exactly when the gate object exists in the shared context *and* is
already locked at entry; when the gate is absent, or present but free, it
proceeds without any lock operation. -/
theorem lock_acquired_iff_present_and_locked (lock : LockState) (c p : String)
    (d : Option String) (s : SetupResult) :
    (async_load_platform lock c p d s).lockOps =
      (if lock.present && lock.locked then [LockOp.acquire, LockOp.release] else []) := by
  rcases lock with ⟨pres, lk⟩
  rcases s with res | _ <;> try cases res
  all_goals cases pres <;> cases lk <;> simp [async_load_platform]

/-- C6: `async_load_platform` fires the platform-discovered event — whose
service field is the string `"load_platform."` followed by the component name
and which carries the given platform and discovered payload — exactly when
the component setup call returns a truthy result; on a falsy result no event
is fired. -/
theorem event_fired_iff_setup_ok (lock : LockState) (c p : String)
    (d : Option String) (res : Bool) :
    (async_load_platform lock c p d (SetupResult.ok res)).event =
      (if res then some ⟨"load_platform." ++ c, p, d⟩ else none) := by
  cases res <;> simp [async_load_platform, loadPlatformService]

/-- C7: on a fetch response with any non-200 status, `async_update` logs one
warning, arms one retry 15 minutes later, and leaves `self.data`, every
device's stored state and the notification flags untouched; no exception
escapes. -/
theorem bad_status_leaves_state (now : Int) (data : Option WeatherData)
    (devices : List Device) (status : Nat) (body : Body) (h : status ≠ 200) :
    async_update now data devices (FetchResult.ok status body) =
      { warnings := 1, scheduled := [now + 15], data := data
        devices := devices.map (fun d => (d, false)), err := none } := by
  simp [async_update, tryAgain, h]

/-- C7 witness: HTTP 503 at a concrete input. -/
theorem bad_status_leaves_state_witness :
    async_update 0 none [⟨SensorType.symbol, none⟩] (FetchResult.ok 503 Body.malformed) =
      { warnings := 1, scheduled := [0 + 15], data := none
        devices := [(⟨SensorType.symbol, none⟩, false)], err := none } :=
  bad_status_leaves_state 0 none [⟨SensorType.symbol, none⟩] 503 Body.malformed (by decide)

/-- C8: when the parsed payload's `meta.model` entry is a singleton list
holding the next-run record, `async_update` unwraps the single element,
extracts its next-run timestamp `t`, and schedules the next cycle at `t`
without logging a warning and without any exception. -/
theorem singleton_model_unwrapped (now t : Int) (data : Option WeatherData) (prod : Product) :
    async_update now data [] (FetchResult.ok 200
        (Body.parsed ⟨some ⟨some ⟨some (ModelField.list [some t])⟩, some prod⟩⟩)) =
      { warnings := 0, scheduled := [t]
        data := some ⟨some ⟨some (ModelField.list [some t])⟩, some prod⟩
        devices := [], err := none } := by
  rfl

/-- C10: the listener registered by `async_listen_platform` runs its callback
exactly when the incoming event carries the matching formatted service
identifier *and* a non-empty platform attribute; a matching-service event
with a missing or empty platform is silently dropped. -/
theorem listener_invoked_iff (component : String) (ev : EventData) :
    (discovery_platform_listener component ev).isSome ↔
      ev.service = some ("load_platform." ++ component) ∧
        ∃ p, ev.platform = some p ∧ p ≠ "" := by
  rcases ev with ⟨sv, pf, dc⟩
  unfold discovery_platform_listener loadPlatformService
  by_cases hs : sv = some ("load_platform." ++ component)
  · rcases pf with _ | p
    · simp [hs]
    · by_cases hp : p = "" <;> simp [hs, hp]
  · simp [hs]

end Spec2Proof
